import Mathlib

/-!
# The `FillShader` constructor

A shallow embedding of `src/renderer/shader-fill.cpp`:

```
FillShader::FillShader()
    : Shader(shaders[FILL_SHADER].vertex, shaders[FILL_SHADER].fragment) {
    if (!valid) { fprintf(stderr, "invalid fill shader\n"); return; }
    a_pos = glGetAttribLocation(program, "a_pos");
    attributes.emplace_front(a_pos);
    u_matrix = glGetUniformLocation(program, "u_matrix");
    u_color = glGetUniformLocation(program, "u_color");
}
```

The constructor is stateful, so it is embedded by explicit state passing over a
`World`: the object under construction, the state of the graphics driver, the
trace of location queries sent to the driver, and the text written to standard
error.  The driver is not part of the repository; it is a parameter, and every
theorem holds for every driver.  The base class constructor `Shader::Shader`,
the table `shaders` and the constant `FILL_SHADER` are declared in headers that
are not part of the translated file; they are parameters as well.
-/

set_option linter.dupNamespace false

namespace llmr

/-- The unsigned integer type of program handles. No arithmetic is done on
handles, so the naturals stand for it. -/
abbrev GLuint := Nat

/-- The signed integer type of attribute and uniform locations. The driver
answers `-1` for a name it does not find. Locations are stored and compared,
never computed with, so the integers stand for it. -/
abbrev GLint := Int

/-- One entry of the `shaders` table: the two source texts of a program. -/
structure shader_source where
  vertex : String
  fragment : String
  deriving DecidableEq, Repr

/-- A location query sent to the driver, with its two arguments. -/
inductive GLCall where
  | glGetAttribLocation (program : GLuint) (name : String)
  | glGetUniformLocation (program : GLuint) (name : String)
  deriving DecidableEq, Repr

/-- The graphics driver, as far as the constructor body uses it. A query is
answered from the driver's current state and may change that state, so the
answers may depend on everything the driver was asked before. -/
structure Driver (δ : Type) where
  glGetAttribLocation : δ → GLuint → String → GLint × δ
  glGetUniformLocation : δ → GLuint → String → GLint × δ

/-- The members of the base class `Shader` that the constructor body reads or
writes. The class is declared in a header outside the translated file; the
elements of `attributes` are taken to have the type of the value the body
puts in front, a location. -/
structure Shader where
  valid : Bool
  program : GLuint
  attributes : List GLint
  deriving DecidableEq, Repr

/-- The object under construction: the base class members and the three
locations cached by `FillShader`. -/
structure FillShader extends Shader where
  a_pos : GLint
  u_matrix : GLint
  u_color : GLint
  deriving DecidableEq, Repr

/-- Everything the constructor can read or change. `calls` is the trace of
location queries in the order they were issued; `stderr` is the text written to
standard error so far. -/
structure World (δ : Type) where
  obj : FillShader
  gl : δ
  calls : List GLCall
  stderr : String

/-- The statement `fprintf(stderr, text)` for a text without conversions. -/
def fprintf_stderr {δ : Type} (text : String) (w : World δ) : World δ :=
  { w with stderr := w.stderr ++ text }

/-- The expression `glGetAttribLocation(program, name)`, evaluated in a world:
the query is recorded, the driver answers and moves to its next state. -/
def glGetAttribLocation {δ : Type} (d : Driver δ) (program : GLuint) (name : String)
    (w : World δ) : GLint × World δ :=
  ((d.glGetAttribLocation w.gl program name).1,
    { w with
      gl := (d.glGetAttribLocation w.gl program name).2,
      calls := w.calls ++ [GLCall.glGetAttribLocation program name] })

/-- The expression `glGetUniformLocation(program, name)`, evaluated in a world. -/
def glGetUniformLocation {δ : Type} (d : Driver δ) (program : GLuint) (name : String)
    (w : World δ) : GLint × World δ :=
  ((d.glGetUniformLocation w.gl program name).1,
    { w with
      gl := (d.glGetUniformLocation w.gl program name).2,
      calls := w.calls ++ [GLCall.glGetUniformLocation program name] })

/-- The body of `FillShader::FillShader`, lines 12 to 21, run in the world the
base class constructor left. -/
def FillShader.body {δ : Type} (d : Driver δ) (w : World δ) : World δ :=
  if !w.obj.valid then
    -- fprintf(stderr, "invalid fill shader\n"); return;
    fprintf_stderr "invalid fill shader\n" w
  else
    -- a_pos = glGetAttribLocation(program, "a_pos");
    let r1 := glGetAttribLocation d w.obj.program "a_pos" w
    let w1 := { r1.2 with obj := { r1.2.obj with a_pos := r1.1 } }
    -- attributes.emplace_front(a_pos);
    let w2 := { w1 with obj := { w1.obj with attributes := w1.obj.a_pos :: w1.obj.attributes } }
    -- u_matrix = glGetUniformLocation(program, "u_matrix");
    let r3 := glGetUniformLocation d w2.obj.program "u_matrix" w2
    let w3 := { r3.2 with obj := { r3.2.obj with u_matrix := r3.1 } }
    -- u_color = glGetUniformLocation(program, "u_color");
    let r4 := glGetUniformLocation d w3.obj.program "u_color" w3
    { r4.2 with obj := { r4.2.obj with u_color := r4.1 } }

/-- The whole constructor: the member initializer runs the base class
constructor on the two sources of `shaders[FILL_SHADER]`, then the body runs.
`Shader_ctor vertex fragment` is the base class constructor `Shader::Shader`;
`shaders` is the table, indexed as a C array. -/
def FillShader.FillShader {δ : Type} (Shader_ctor : String → String → World δ → World δ)
    (shaders : Nat → shader_source) (FILL_SHADER : Nat) (d : Driver δ) (w : World δ) :
    World δ :=
  FillShader.body d
    (Shader_ctor (shaders FILL_SHADER).vertex (shaders FILL_SHADER).fragment w)

/-! ## Concrete drivers and worlds, used to evaluate the constructor -/

/-- A driver that finds the three names the fill shader asks for, and counts in
its state how many queries it has answered. -/
def foundDriver : Driver Nat where
  glGetAttribLocation g _ name := (if name = "a_pos" then 0 else -1, g + 1)
  glGetUniformLocation g _ name :=
    (if name = "u_matrix" then 0 else if name = "u_color" then 1 else -1, g + 1)

/-- A driver for a linked program that has none of the three names active:
every location query is answered with `-1`. -/
def notFoundDriver : Driver Nat where
  glGetAttribLocation g _ _ := (-1, g + 1)
  glGetUniformLocation g _ _ := (-1, g + 1)

/-- A world after a failed base construction: `valid` is false. -/
def failedWorld : World Nat where
  obj := { valid := false, program := 0, attributes := [5], a_pos := 7, u_matrix := 8, u_color := 9 }
  gl := 0
  calls := []
  stderr := ""

/-- A world after a successful base construction: `valid` is true and the
program handle is 3. -/
def linkedWorld : World Nat where
  obj := { valid := true, program := 3, attributes := [5], a_pos := 7, u_matrix := 8, u_color := 9 }
  gl := 0
  calls := []
  stderr := ""

/-- A two-entry `shaders` table. -/
def sampleShaders : Nat → shader_source
  | 0 => { vertex := "fill.vertex", fragment := "fill.fragment" }
  | _ => { vertex := "line.vertex", fragment := "line.fragment" }

/-- A base class constructor that reports success exactly when it is handed the
fill vertex source first and the fill fragment source second. -/
def sampleShader_ctor (vertex fragment : String) (w : World Nat) : World Nat :=
  { w with obj := { w.obj with
      valid := decide (vertex = "fill.vertex" ∧ fragment = "fill.fragment"),
      program := 3 } }

/-! ## The two branches of the body -/

/-- The failure branch: the body is the single write to standard error. -/
theorem FillShader.body_of_invalid {δ : Type} (d : Driver δ) (w : World δ)
    (h : w.obj.valid = false) :
    FillShader.body d w = fprintf_stderr "invalid fill shader\n" w := by
  simp [FillShader.body, h]

/-- The success branch: the world after the three queries, written out. -/
theorem FillShader.body_of_valid {δ : Type} (d : Driver δ) (w : World δ)
    (h : w.obj.valid = true) :
    FillShader.body d w =
      { obj :=
          { valid := w.obj.valid
            program := w.obj.program
            attributes := (d.glGetAttribLocation w.gl w.obj.program "a_pos").1 :: w.obj.attributes
            a_pos := (d.glGetAttribLocation w.gl w.obj.program "a_pos").1
            u_matrix :=
              (d.glGetUniformLocation (d.glGetAttribLocation w.gl w.obj.program "a_pos").2
                w.obj.program "u_matrix").1
            u_color :=
              (d.glGetUniformLocation
                (d.glGetUniformLocation (d.glGetAttribLocation w.gl w.obj.program "a_pos").2
                  w.obj.program "u_matrix").2
                w.obj.program "u_color").1 }
        gl :=
          (d.glGetUniformLocation
            (d.glGetUniformLocation (d.glGetAttribLocation w.gl w.obj.program "a_pos").2
              w.obj.program "u_matrix").2
            w.obj.program "u_color").2
        calls :=
          w.calls ++
            [GLCall.glGetAttribLocation w.obj.program "a_pos",
             GLCall.glGetUniformLocation w.obj.program "u_matrix",
             GLCall.glGetUniformLocation w.obj.program "u_color"]
        stderr := w.stderr } := by
  simp [FillShader.body, h, glGetAttribLocation, glGetUniformLocation]

/-- The message has twenty characters, so appending it changes any text. -/
theorem append_message_ne (s : String) : s ++ "invalid fill shader\n" ≠ s := by
  intro h
  have hl := congrArg String.length h
  rw [String.length_append] at hl
  have h20 : ("invalid fill shader\n" : String).length = 20 := by decide
  omega

/-! ## The claims -/

/-- C1: when the base construction left `valid = false`, the constructor body
returns early: it sends no location query to the driver (the trace and the
driver state are as they were), it leaves `a_pos`, `u_matrix` and `u_color` as
they were, and it leaves the attributes list as it was. -/
theorem C1_invalid_returns_early {δ : Type} (d : Driver δ) (w : World δ)
    (h : w.obj.valid = false) :
    (FillShader.body d w).calls = w.calls ∧
    (FillShader.body d w).gl = w.gl ∧
    (FillShader.body d w).obj.a_pos = w.obj.a_pos ∧
    (FillShader.body d w).obj.u_matrix = w.obj.u_matrix ∧
    (FillShader.body d w).obj.u_color = w.obj.u_color ∧
    (FillShader.body d w).obj.attributes = w.obj.attributes := by
  rw [FillShader.body_of_invalid d w h]
  simp [fprintf_stderr]

/-- C1 at a concrete failed world: no query, fields and list untouched. -/
theorem C1_invalid_returns_early_witness :
    failedWorld.obj.valid = false ∧
    (FillShader.body foundDriver failedWorld).calls = [] ∧
    (FillShader.body foundDriver failedWorld).gl = 0 ∧
    (FillShader.body foundDriver failedWorld).obj.a_pos = 7 ∧
    (FillShader.body foundDriver failedWorld).obj.u_matrix = 8 ∧
    (FillShader.body foundDriver failedWorld).obj.u_color = 9 ∧
    (FillShader.body foundDriver failedWorld).obj.attributes = [5] :=
  ⟨rfl, C1_invalid_returns_early foundDriver failedWorld rfl⟩

/-- C2: when the base construction left `valid = true`, after the constructor
body `a_pos` is the driver's answer to `glGetAttribLocation(program, "a_pos")`,
`u_matrix` is its answer to `glGetUniformLocation(program, "u_matrix")` and
`u_color` is its answer to `glGetUniformLocation(program, "u_color")`, each
asked on the object's own program handle, in the driver state the previous
query left. -/
theorem C2_locations_are_driver_answers {δ : Type} (d : Driver δ) (w : World δ)
    (h : w.obj.valid = true) :
    (FillShader.body d w).obj.a_pos =
      (d.glGetAttribLocation w.gl w.obj.program "a_pos").1 ∧
    (FillShader.body d w).obj.u_matrix =
      (d.glGetUniformLocation (d.glGetAttribLocation w.gl w.obj.program "a_pos").2
        w.obj.program "u_matrix").1 ∧
    (FillShader.body d w).obj.u_color =
      (d.glGetUniformLocation
        (d.glGetUniformLocation (d.glGetAttribLocation w.gl w.obj.program "a_pos").2
          w.obj.program "u_matrix").2
        w.obj.program "u_color").1 := by
  rw [FillShader.body_of_valid d w h]
  exact ⟨rfl, rfl, rfl⟩

/-- C2 at a concrete linked world: the fields hold the answers 0, 0 and 1. -/
theorem C2_locations_are_driver_answers_witness :
    linkedWorld.obj.valid = true ∧
    (FillShader.body foundDriver linkedWorld).obj.a_pos =
      (foundDriver.glGetAttribLocation 0 3 "a_pos").1 ∧
    (FillShader.body foundDriver linkedWorld).obj.u_matrix =
      (foundDriver.glGetUniformLocation 1 3 "u_matrix").1 ∧
    (FillShader.body foundDriver linkedWorld).obj.u_color =
      (foundDriver.glGetUniformLocation 2 3 "u_color").1 :=
  ⟨rfl, C2_locations_are_driver_answers foundDriver linkedWorld rfl⟩

/-- C3: the constructor body writes to standard error if and only if the
object is invalid after base construction: when `valid = false` it appends
exactly the one line "invalid fill shader\n", and when `valid = true` it
appends nothing. -/
theorem C3_stderr_iff_invalid {δ : Type} (d : Driver δ) (w : World δ) :
    (FillShader.body d w).stderr =
      w.stderr ++ (if w.obj.valid = true then "" else "invalid fill shader\n") ∧
    ((FillShader.body d w).stderr ≠ w.stderr ↔ w.obj.valid = false) := by
  cases h : w.obj.valid with
  | false =>
    rw [FillShader.body_of_invalid d w h]
    simpa [fprintf_stderr] using append_message_ne w.stderr
  | true =>
    rw [FillShader.body_of_valid d w h]
    simp

/-- C4, as the spec states it, fails: with a driver that answers `-1` to every
location query and `valid = true`, all three fields hold `-1` after the
constructor body. -/
theorem C4_locations_valid_counterexample :
    linkedWorld.obj.valid = true ∧
    ¬ ((FillShader.body notFoundDriver linkedWorld).obj.a_pos ≠ -1 ∧
       (FillShader.body notFoundDriver linkedWorld).obj.u_matrix ≠ -1 ∧
       (FillShader.body notFoundDriver linkedWorld).obj.u_color ≠ -1) := by
  refine ⟨rfl, ?_⟩
  rw [FillShader.body_of_valid notFoundDriver linkedWorld rfl]
  simp [notFoundDriver]

/-- C4, amended: when `valid = true`, each of `a_pos`, `u_matrix` and `u_color`
held after the constructor body differs from the not-found value `-1` exactly
when the driver's answer to the corresponding query differs from `-1`; the
body stores the answers unchecked. -/
theorem C4_locations_valid_iff_found {δ : Type} (d : Driver δ) (w : World δ)
    (h : w.obj.valid = true) :
    ((FillShader.body d w).obj.a_pos ≠ -1 ↔
      (d.glGetAttribLocation w.gl w.obj.program "a_pos").1 ≠ -1) ∧
    ((FillShader.body d w).obj.u_matrix ≠ -1 ↔
      (d.glGetUniformLocation (d.glGetAttribLocation w.gl w.obj.program "a_pos").2
        w.obj.program "u_matrix").1 ≠ -1) ∧
    ((FillShader.body d w).obj.u_color ≠ -1 ↔
      (d.glGetUniformLocation
        (d.glGetUniformLocation (d.glGetAttribLocation w.gl w.obj.program "a_pos").2
          w.obj.program "u_matrix").2
        w.obj.program "u_color").1 ≠ -1) := by
  rw [FillShader.body_of_valid d w h]
  exact ⟨Iff.rfl, Iff.rfl, Iff.rfl⟩

/-- C4 amended, at a concrete linked world with a driver that finds all three
names: none of the fields is `-1`. -/
theorem C4_locations_valid_iff_found_witness :
    linkedWorld.obj.valid = true ∧
    (FillShader.body foundDriver linkedWorld).obj.a_pos ≠ -1 ∧
    (FillShader.body foundDriver linkedWorld).obj.u_matrix ≠ -1 ∧
    (FillShader.body foundDriver linkedWorld).obj.u_color ≠ -1 :=
  ⟨rfl,
    (C4_locations_valid_iff_found foundDriver linkedWorld rfl).1.mpr (by decide),
    (C4_locations_valid_iff_found foundDriver linkedWorld rfl).2.1.mpr (by decide),
    (C4_locations_valid_iff_found foundDriver linkedWorld rfl).2.2.mpr (by decide)⟩

/-- C5: the constructor body never changes the `valid` flag or the program
handle: in both branches their values after the body equal their values on
entry, so a failed compilation leaves the object marked invalid. -/
theorem C5_valid_and_program_unchanged {δ : Type} (d : Driver δ) (w : World δ) :
    (FillShader.body d w).obj.valid = w.obj.valid ∧
    (FillShader.body d w).obj.program = w.obj.program ∧
    (w.obj.valid = false → (FillShader.body d w).obj.valid = false) := by
  cases h : w.obj.valid with
  | false =>
    rw [FillShader.body_of_invalid d w h]
    simp [fprintf_stderr, h]
  | true =>
    rw [FillShader.body_of_valid d w h]
    simp [h]

/-- C6: for every content of the `shaders` table, every index `FILL_SHADER` and
every base class constructor, the constructor is its body run after the base
class constructor applied to the vertex source of `shaders[FILL_SHADER]` as
first argument and the fragment source of the same entry as second. -/
theorem C6_base_constructor_arguments {δ : Type}
    (Shader_ctor : String → String → World δ → World δ)
    (shaders : Nat → shader_source) (FILL_SHADER : Nat) (d : Driver δ) (w : World δ) :
    FillShader.FillShader Shader_ctor shaders FILL_SHADER d w =
      FillShader.body d
        (Shader_ctor (shaders FILL_SHADER).vertex (shaders FILL_SHADER).fragment w) :=
  rfl

/-- C6 at a concrete table and a base class constructor that succeeds only on
the fill vertex source followed by the fill fragment source: the base class
constructor is run on exactly these two, in this order, and so the object ends
up valid with its locations resolved. -/
theorem C6_base_constructor_arguments_witness :
    FillShader.FillShader sampleShader_ctor sampleShaders 0 foundDriver failedWorld =
      FillShader.body foundDriver
        (sampleShader_ctor "fill.vertex" "fill.fragment" failedWorld) ∧
    (FillShader.FillShader sampleShader_ctor sampleShaders 0 foundDriver failedWorld).obj.valid
      = true ∧
    (FillShader.FillShader sampleShader_ctor sampleShaders 0 foundDriver failedWorld).obj.attributes
      = [0, 5] :=
  ⟨C6_base_constructor_arguments sampleShader_ctor sampleShaders 0 foundDriver failedWorld,
    by decide, by decide⟩

/-- C7: when `valid = true`, the constructor body prepends exactly one element
to the attributes list: the list afterwards is the `a_pos` field followed by the
list as it was, its length grows by one, its head is the `a_pos` field, and that
field is the driver's answer whatever it is, `-1` included. -/
theorem C7_attributes_prepended {δ : Type} (d : Driver δ) (w : World δ)
    (h : w.obj.valid = true) :
    (FillShader.body d w).obj.attributes =
      (FillShader.body d w).obj.a_pos :: w.obj.attributes ∧
    (FillShader.body d w).obj.attributes.length = w.obj.attributes.length + 1 ∧
    (FillShader.body d w).obj.attributes.head? = some (FillShader.body d w).obj.a_pos ∧
    (FillShader.body d w).obj.a_pos =
      (d.glGetAttribLocation w.gl w.obj.program "a_pos").1 := by
  rw [FillShader.body_of_valid d w h]
  simp

/-- C7 at a concrete linked world whose driver answers `-1`: the list `[5]`
becomes `[-1, 5]`. -/
theorem C7_attributes_prepended_witness :
    linkedWorld.obj.valid = true ∧
    (FillShader.body notFoundDriver linkedWorld).obj.attributes =
      (FillShader.body notFoundDriver linkedWorld).obj.a_pos :: [5] ∧
    (FillShader.body notFoundDriver linkedWorld).obj.attributes.length = 1 + 1 ∧
    (FillShader.body notFoundDriver linkedWorld).obj.attributes.head? =
      some (FillShader.body notFoundDriver linkedWorld).obj.a_pos ∧
    (FillShader.body notFoundDriver linkedWorld).obj.a_pos = -1 :=
  ⟨rfl, C7_attributes_prepended notFoundDriver linkedWorld rfl⟩

/-- C8: the driver calls made by the constructor body are, when `valid = true`,
exactly three location queries in this order: `glGetAttribLocation` for
"a_pos", `glGetUniformLocation` for "u_matrix", `glGetUniformLocation` for
"u_color", each on the object's program handle; when `valid = false` the body
makes no driver call. The trace of calls grows by exactly this sequence, and
the driver itself is really queried: its state after the body is the state
reached by these three transitions in this order on success and the state on
entry on failure, and on success the three fields hold the three answers the
driver gave along the way. -/
theorem C8_driver_call_trace {δ : Type} (d : Driver δ) (w : World δ) :
    (FillShader.body d w).calls =
      w.calls ++
        (if w.obj.valid = true then
          [GLCall.glGetAttribLocation w.obj.program "a_pos",
           GLCall.glGetUniformLocation w.obj.program "u_matrix",
           GLCall.glGetUniformLocation w.obj.program "u_color"]
        else []) ∧
    (FillShader.body d w).gl =
      (if w.obj.valid = true then
        (d.glGetUniformLocation
          (d.glGetUniformLocation (d.glGetAttribLocation w.gl w.obj.program "a_pos").2
            w.obj.program "u_matrix").2
          w.obj.program "u_color").2
      else w.gl) ∧
    ((FillShader.body d w).obj.a_pos, (FillShader.body d w).obj.u_matrix,
        (FillShader.body d w).obj.u_color) =
      (if w.obj.valid = true then
        ((d.glGetAttribLocation w.gl w.obj.program "a_pos").1,
         (d.glGetUniformLocation (d.glGetAttribLocation w.gl w.obj.program "a_pos").2
            w.obj.program "u_matrix").1,
         (d.glGetUniformLocation
            (d.glGetUniformLocation (d.glGetAttribLocation w.gl w.obj.program "a_pos").2
              w.obj.program "u_matrix").2
            w.obj.program "u_color").1)
      else (w.obj.a_pos, w.obj.u_matrix, w.obj.u_color)) := by
  cases h : w.obj.valid with
  | false =>
    rw [FillShader.body_of_invalid d w h]
    simp [fprintf_stderr]
  | true =>
    rw [FillShader.body_of_valid d w h]
    simp

/-- C8 at a driver that counts the queries it answers: on the linked world the
trace is the three queries on handle 3 and the driver has answered three
queries, giving 0, 0 and 1; on the failed world the trace is empty and the
driver has answered none. -/
theorem C8_driver_call_trace_witness :
    ((FillShader.body foundDriver linkedWorld).calls =
        [GLCall.glGetAttribLocation 3 "a_pos",
         GLCall.glGetUniformLocation 3 "u_matrix",
         GLCall.glGetUniformLocation 3 "u_color"] ∧
      (FillShader.body foundDriver linkedWorld).gl = 3 ∧
      ((FillShader.body foundDriver linkedWorld).obj.a_pos,
        (FillShader.body foundDriver linkedWorld).obj.u_matrix,
        (FillShader.body foundDriver linkedWorld).obj.u_color) = (0, 0, 1)) ∧
    ((FillShader.body foundDriver failedWorld).calls = [] ∧
      (FillShader.body foundDriver failedWorld).gl = 0 ∧
      ((FillShader.body foundDriver failedWorld).obj.a_pos,
        (FillShader.body foundDriver failedWorld).obj.u_matrix,
        (FillShader.body foundDriver failedWorld).obj.u_color) = (7, 8, 9)) :=
  ⟨C8_driver_call_trace foundDriver linkedWorld,
    C8_driver_call_trace foundDriver failedWorld⟩

end llmr
